import Mathlib

/-!
Verification development for the cta-train-metrics repository.

Part 1 embeds the GTFS expected-schedule deriver
(src/lambdas/gtfs_expected_schedule/main.py): the five GTFS relations are
typed row lists, the pandas filter/merge pipeline becomes nested
filter/flatMap, and the pandas column arithmetic (select, drop, merge) is
mirrored on column-name lists so that the shape of the persisted CSV can be
stated.  Part 2 embeds the dashboard analytics
(src/pages/schedule.py): the three DuckDB queries over the historical
schedule table become list programs; DuckDB VARCHAR minima are modelled as
byte-lexicographic minima, DOUBLE arithmetic as exact rationals, the
DOUBLE-to-INTEGER cast as round-half-to-even, and round() as
round-half-away-from-zero.  Queries whose SQL can abort on a failed
VARCHAR-to-INTEGER cast return Option, with none modelling the query error.
-/

namespace Cta

/-- Rail-line allow-list `TRAIN_LINES` from the deriver lambda. -/
def TRAIN_LINES : List String :=
  ["Red Line", "Purple Line", "Yellow Line", "Blue Line",
   "Pink Line", "Green Line", "Orange Line", "Brown Line"]

/-- Row of calendar.txt: service_id, seven day flags, validity range. -/
structure CalendarRow where
  service_id : String
  monday : Nat
  tuesday : Nat
  wednesday : Nat
  thursday : Nat
  friday : Nat
  saturday : Nat
  sunday : Nat
  start_date : Nat
  end_date : Nat
deriving DecidableEq

/-- Row of routes.txt (columns selected by the deriver). -/
structure RouteRow where
  route_id : String
  route_long_name : String
  route_color : String
deriving DecidableEq

/-- Row of stops.txt (columns selected by the deriver). -/
structure StopRow where
  stop_id : Int
  stop_name : String
deriving DecidableEq

/-- Row of stop_times.txt (columns selected by the deriver). -/
structure StopTimeRow where
  trip_id : String
  arrival_time : String
  departure_time : String
  stop_id : Int
  stop_sequence : Nat
deriving DecidableEq

/-- Row of trips.txt (columns selected by the deriver). -/
structure TripRow where
  route_id : String
  service_id : String
  trip_id : String
  direction_id : Nat
deriving DecidableEq

/-- The row type of the deriver's combined dataframe.  Note that
`start_date` and `end_date` are absent: the source drops them from the
calendar dataframe before joining. -/
structure ScheduleRow where
  route_id : String
  route_long_name : String
  route_color : String
  service_id : String
  trip_id : String
  direction_id : Nat
  monday : Nat
  tuesday : Nat
  wednesday : Nat
  thursday : Nat
  friday : Nat
  saturday : Nat
  sunday : Nat
  arrival_time : String
  departure_time : String
  stop_id : Int
  stop_sequence : Nat
  stop_name : String
deriving DecidableEq

/-- The rail-platform stop-id predicate `stop_id >= 30000 and stop_id < 40000`. -/
def inStopRange (n : Int) : Bool :=
  decide (30000 ≤ n) && decide (n < 40000)

/-- routes filtered to `route_long_name in @TRAIN_LINES`. -/
def routesFiltered (routes : List RouteRow) : List RouteRow :=
  routes.filter fun r => TRAIN_LINES.contains r.route_long_name

/-- stops filtered to the rail-platform id range. -/
def stopsFiltered (stops : List StopRow) : List StopRow :=
  stops.filter fun s => inStopRange s.stop_id

/-- stop_times filtered to the rail-platform id range. -/
def stopTimesFiltered (stop_times : List StopTimeRow) : List StopTimeRow :=
  stop_times.filter fun s => inStopRange s.stop_id

/-- Field assembly for one joined row (calendar start/end already dropped). -/
def mkScheduleRow (r : RouteRow) (t : TripRow) (c : CalendarRow)
    (st : StopTimeRow) (sp : StopRow) : ScheduleRow :=
  { route_id := r.route_id
    route_long_name := r.route_long_name
    route_color := r.route_color
    service_id := t.service_id
    trip_id := t.trip_id
    direction_id := t.direction_id
    monday := c.monday
    tuesday := c.tuesday
    wednesday := c.wednesday
    thursday := c.thursday
    friday := c.friday
    saturday := c.saturday
    sunday := c.sunday
    arrival_time := st.arrival_time
    departure_time := st.departure_time
    stop_id := st.stop_id
    stop_sequence := st.stop_sequence
    stop_name := sp.stop_name }

/-- The deriver's join pipeline `processs_gtfs_data` (sic): filter, then
inner joins routes ⋈ trips on route_id, ⋈ calendar on service_id,
⋈ stop_times on trip_id, ⋈ stops on stop_id.  Inner merges are modelled
left-major; pandas leaves the inner-merge row order unspecified and every
claim about this function is row-order-insensitive. -/
def processs_gtfs_data (calendar : List CalendarRow) (routes : List RouteRow)
    (stops : List StopRow) (stop_times : List StopTimeRow)
    (trips : List TripRow) : List ScheduleRow :=
  (routesFiltered routes).flatMap fun r =>
    (trips.filter fun t => t.route_id == r.route_id).flatMap fun t =>
      (calendar.filter fun c => c.service_id == t.service_id).flatMap fun c =>
        ((stopTimesFiltered stop_times).filter fun st => st.trip_id == t.trip_id).flatMap fun st =>
          ((stopsFiltered stops).filter fun sp => sp.stop_id == st.stop_id).map fun sp =>
            mkScheduleRow r t c st sp

/-! Column arithmetic of the same pipeline, mirrored on column-name lists:
`select` keeps the listed columns, pandas `reset_index()` prepends the
`index` column, `drop` removes columns, and an inner `merge` on a key
appends the right columns minus the key. -/

/-- Columns of calendar.txt. -/
def calendarCols : List String :=
  ["service_id", "monday", "tuesday", "wednesday", "thursday", "friday",
   "saturday", "sunday", "start_date", "end_date"]

/-- Columns selected from routes.txt. -/
def routesSelCols : List String := ["route_id", "route_long_name", "route_color"]

/-- Columns selected from stops.txt. -/
def stopsSelCols : List String := ["stop_id", "stop_name"]

/-- Columns selected from stop_times.txt. -/
def stopTimesSelCols : List String :=
  ["trip_id", "arrival_time", "departure_time", "stop_id", "stop_sequence"]

/-- Columns selected from trips.txt. -/
def tripsSelCols : List String :=
  ["route_id", "service_id", "trip_id", "direction_id"]

/-- pandas `drop(columns=remove)` on a column list. -/
def dropCols (cols remove : List String) : List String :=
  cols.filter fun c => !(remove.contains c)

/-- pandas `reset_index()` on a column list (prepends the old index). -/
def resetIndexCols (cols : List String) : List String := "index" :: cols

/-- Column list of `pd.merge(left, right, on=key, how="inner")`:
left columns followed by the right columns minus the join key. -/
def mergeCols (left right : List String) (key : String) : List String :=
  left ++ right.filter fun c => !(c == key)

/-- Column list of the deriver's combined dataframe, following the source
step by step. -/
def combinedColumns : List String :=
  let calendarFilteredCols := dropCols calendarCols ["start_date", "end_date"]
  let routesFilteredCols := resetIndexCols routesSelCols
  let stopsFilteredCols := resetIndexCols stopsSelCols
  let stopTimesFilteredCols := resetIndexCols stopTimesSelCols
  let step1 := dropCols (mergeCols routesFilteredCols tripsSelCols "route_id") ["index"]
  let step2 := mergeCols step1 calendarFilteredCols "service_id"
  let step3 := dropCols (mergeCols step2 stopTimesFilteredCols "trip_id") ["index"]
  dropCols (mergeCols step3 stopsFilteredCols "stop_id") ["index"]

/-- The fixed S3 object key used by `save_to_s3`. -/
def save_to_s3_key : String := "gtfs_expected_cta_schedule.csv"

/-- The deriver's `handler` pipeline over already-fetched relations: a
`none` relation models the S3 object being absent, in which case
`read_gtfs_data` re-raises the ClientError (files are read in the fixed
order calendar, routes, stops, stop_times, trips) and nothing is written;
otherwise the joined table is computed and written under the fixed key.
The returned pair is (written object key, written table). -/
def gtfsHandler (calendarOpt : Option (List CalendarRow))
    (routesOpt : Option (List RouteRow)) (stopsOpt : Option (List StopRow))
    (stopTimesOpt : Option (List StopTimeRow))
    (tripsOpt : Option (List TripRow)) :
    Except String (String × List ScheduleRow) :=
  match calendarOpt with
  | none => .error "ClientError: calendar.txt"
  | some calendar =>
    match routesOpt with
    | none => .error "ClientError: routes.txt"
    | some routes =>
      match stopsOpt with
      | none => .error "ClientError: stops.txt"
      | some stops =>
        match stopTimesOpt with
        | none => .error "ClientError: stop_times.txt"
        | some stop_times =>
          match tripsOpt with
          | none => .error "ClientError: trips.txt"
          | some trips =>
            .ok (save_to_s3_key, processs_gtfs_data calendar routes stops stop_times trips)

/-! Part 2: the dashboard analytics of src/pages/schedule.py.  The base
table `historical_schedule_data` is the union of the effective-date
artifacts read back from the store; per the interface its rows carry the
full joined column set including start_date and end_date. -/

/-- Row of the dashboard's historical schedule table. -/
structure HistRow where
  route_id : String
  route_long_name : String
  route_color : String
  service_id : String
  trip_id : String
  direction_id : Nat
  monday : Nat
  tuesday : Nat
  wednesday : Nat
  thursday : Nat
  friday : Nat
  saturday : Nat
  sunday : Nat
  start_date : Nat
  end_date : Nat
  arrival_time : String
  departure_time : String
  stop_id : Int
  stop_sequence : Nat
  stop_name : String
deriving DecidableEq

/-- Numeric value of a decimal digit character, none otherwise. -/
def digitVal (c : Char) : Option Nat :=
  if '0' ≤ c && c ≤ '9' then some (c.toNat - '0'.toNat) else none

/-- Accumulating decimal parse of a digit string. -/
def digitsToNat (acc : Nat) : List Char → Option Nat
  | [] => some acc
  | c :: cs =>
    match digitVal c with
    | some d => digitsToNat (acc * 10 + d) cs
    | none => none

/-- DuckDB `VARCHAR :: INTEGER` cast: an optional minus sign followed by
one or more decimal digits; anything else (in particular the empty
string) is a cast error, modelled as none. -/
def duckToInt (s : String) : Option Int :=
  match s.data with
  | [] => none
  | '-' :: cs =>
    match cs with
    | [] => none
    | _ => (digitsToNat 0 cs).map fun n => -(n : Int)
  | cs => (digitsToNat 0 cs).map fun n => (n : Int)

/-- Split a character list at each colon. -/
def splitCols : List Char → List (List Char)
  | [] => [[]]
  | c :: cs =>
    if c = ':' then [] :: splitCols cs
    else
      match splitCols cs with
      | [] => [[c]]
      | r :: rs => (c :: r) :: rs

/-- DuckDB `split_part(s, chr(58), n)` (1-based field index, empty string
when the index is out of range). -/
def splitPart (s : String) (n : Nat) : String :=
  { data := (splitCols s.data).getD (n - 1) [] }

/-- Byte-lexicographic (= codepoint-lexicographic for UTF-8) strict order
on character lists, DuckDB's default VARCHAR collation. -/
def charListLt : List Char → List Char → Bool
  | [], [] => false
  | [], _ :: _ => true
  | _ :: _, [] => false
  | a :: as, b :: bs =>
    if a < b then true else if b < a then false else charListLt as bs

/-- DuckDB `MIN` over a VARCHAR column: none on the empty group. -/
def minVarchar (l : List String) : Option String :=
  l.foldl (fun acc s =>
    match acc with
    | none => some s
    | some m => some (if charListLt s.data m.data then s else m)) none

/-- Option-valued traversal: none as soon as one element fails, modelling
a DuckDB query aborting on a cast error in any row. -/
def optionTraverse (f : α → Option β) : List α → Option (List β)
  | [] => some []
  | a :: as =>
    match f a, optionTraverse f as with
    | some b, some bs => some (b :: bs)
    | _, _ => none

/-- The `runs_calculation` CASE expression of the `filtered_schedules`
query, parameterised by the bound schedule-type string. -/
def runsCalculation (scheduleType : String) (r : HistRow) : Nat :=
  if scheduleType == "Weekday" then
    r.monday + r.tuesday + r.wednesday + r.thursday + r.friday
  else if scheduleType == "Saturday" then r.saturday
  else if scheduleType == "Sunday" then r.sunday
  else 0

/-- The `filtered_schedules` query: keep the rows of the base table with
`runs_calculation > 0 AND route_long_name = line`.  (The extra
runs_calculation column of the SELECT is not carried along: no downstream
query reads it.) -/
def filteredSchedules (scheduleType line : String) (rows : List HistRow) : List HistRow :=
  rows.filter fun r =>
    decide (0 < runsCalculation scheduleType r) && (r.route_long_name == line)

/-- Per-trip start hour of the `trip_starts` CTE: MIN(arrival_time) over
the trip's rows, then the field before the first colon cast to INTEGER. -/
def tripStartHour (rows : List HistRow) (tid : String) : Option Int :=
  (minVarchar ((rows.filter fun r => r.trip_id == tid).map fun r => r.arrival_time)).bind
    fun first => duckToInt (splitPart first 1)

/-- Query A (`trains_per_hour`): group by trip_id, take MIN(arrival_time)
per trip, cast the substring before the first colon to INTEGER as the
(unwrapped) hour, then count trips per hour, ascending by hour. -/
def trainsPerHour (rows : List HistRow) : Option (List (Int × Nat)) :=
  match optionTraverse (tripStartHour rows) ((rows.map fun r => r.trip_id).dedup) with
  | none => none
  | some starts =>
    some (List.insertionSort (fun a b => a.1 ≤ b.1)
      (starts.dedup.map fun h => (h, (starts.filter fun x => x == h).length)))

/-- The `split_data` conversion: `h*3600 + m*60 + s` from the three
colon-separated fields of arrival_time. -/
def arrivalSeconds (s : String) : Option Int := do
  let h ← duckToInt (splitPart s 1)
  let m ← duckToInt (splitPart s 2)
  let sec ← duckToInt (splitPart s 3)
  pure (h * 3600 + m * 60 + sec)

/-- `floor((arrival_seconds / 3600) % 24)` of the `headway_calc` CTE.  In
DuckDB the division is DOUBLE division and `%` is fmod; for the
nonnegative arrival_seconds produced by HH:MM:SS strings this equals the
integer computation below. -/
def hourBucket (a : Int) : Int := a / 3600 % 24

/-- Headway samples contributed by one stop partition: arrivals sorted
ascending, LAG gives each row its predecessor, the first row (NULL LAG)
is dropped, and each gap is reported in minutes under the hour bucket of
the current (later) arrival. -/
def stopSamples (data : List (Int × Int)) (sid : Int) : List (Int × ℚ) :=
  let arrivals := List.insertionSort (fun a b => a ≤ b)
    ((data.filter fun p => p.1 == sid).map fun p => p.2)
  (arrivals.zip arrivals.tail).map fun pc =>
    (hourBucket pc.2, ((pc.2 - pc.1 : Int) : ℚ) / 60)

/-- All headway samples of the `headway_calc` CTE, partitioned by stop_id. -/
def headwaySamples (data : List (Int × Int)) : List (Int × ℚ) :=
  ((data.map fun p => p.1).dedup).flatMap (stopSamples data)

/-- DuckDB `round` on DOUBLE: round half away from zero. -/
def duckRound (q : ℚ) : Int :=
  if 0 ≤ q then ⌊q + 1 / 2⌋ else -⌊1 / 2 - q⌋

/-- DuckDB `DOUBLE :: INTEGER` cast: round half to even. -/
def duckCastInt (q : ℚ) : Int :=
  let f := ⌊q⌋
  if q - f < 1 / 2 then f
  else if 1 / 2 < q - f then f + 1
  else if f % 2 = 0 then f else f + 1

/-- One zero-padded width-2 decimal field of the mm:ss format string. -/
def pad2 (n : Int) : String :=
  if 0 ≤ n ∧ n < 10 then "0" ++ toString n else toString n

/-- The `avg_headway_mmss` format: minutes from
`(round(avg*60) / 60) :: INTEGER` (DOUBLE division, then cast) and
seconds from `(round(avg*60) % 60) :: INTEGER` (fmod, sign of the
dividend, hence `Int.tmod`). -/
def mmss (avg : ℚ) : String :=
  pad2 (duckCastInt ((duckRound (avg * 60) : ℚ) / 60)) ++ ":" ++
    pad2 (Int.tmod (duckRound (avg * 60)) 60)

/-- Query B (`average_headway`): headway samples grouped by hour bucket
with their mean in minutes and its mm:ss rendering, ascending by hour. -/
def averageHeadway (rows : List HistRow) : Option (List (Int × ℚ × String)) :=
  match optionTraverse (fun r => (arrivalSeconds r.arrival_time).map fun s => (r.stop_id, s)) rows with
  | none => none
  | some data =>
    let samples := headwaySamples data
    some (List.insertionSort (fun a b => a.1 ≤ b.1)
      (((samples.map fun p => p.1).dedup).map fun h =>
        let gs := (samples.filter fun p => p.1 == h).map fun p => p.2
        let avg := gs.sum / (gs.length : ℚ)
        (h, avg, mmss avg)))

/-- `strptime(CAST(start_date AS VARCHAR), ...)` on a YYYYMMDD integer,
kept as the (year, month, day) triple.  (strptime aborts on out-of-range
fields; no claim exercises an invalid date, so the parse is kept total.) -/
def parseYmd (n : Nat) : Nat × Nat × Nat := (n / 10000, n / 100 % 100, n % 100)

/-- Query C (`total_trains`): group by (route_long_name, start_date,
route_color), count distinct trip_id, render the date and the
hash-prefixed color, descending by scheduled run count. -/
def totalTrains (rows : List HistRow) :
    List (String × (Nat × Nat × Nat) × String × Nat) :=
  let keys := (rows.map fun r => (r.route_long_name, r.start_date, r.route_color)).dedup
  List.insertionSort (fun a b => b.2.2.2 ≤ a.2.2.2)
    (keys.map fun k =>
      let group := rows.filter fun r =>
        (r.route_long_name, r.start_date, r.route_color) == k
      (k.1, parseYmd k.2.1, "#" ++ k.2.2, ((group.map fun r => r.trip_id).dedup).length))

/-! Test fixtures: the basic-schedule-build scenario of the spec and small
variants of it. -/

/-- Calendar fixture: weekday service X valid 20260101-20261231. -/
def calX : CalendarRow :=
  { service_id := "X", monday := 1, tuesday := 1, wednesday := 1,
    thursday := 1, friday := 1, saturday := 0, sunday := 0,
    start_date := 20260101, end_date := 20261231 }

/-- Route fixture: the Red Line. -/
def routeR1 : RouteRow :=
  { route_id := "R1", route_long_name := "Red Line", route_color := "C60C30" }

/-- Stop fixture: rail platform 30010. -/
def stop30010 : StopRow := { stop_id := 30010, stop_name := "Grand" }

/-- Stop-time fixture: trip T1 visits stop 30010 at 08:15:00. -/
def stopTimeT1 : StopTimeRow :=
  { trip_id := "T1", arrival_time := "08:15:00",
    departure_time := "08:15:30", stop_id := 30010, stop_sequence := 1 }

/-- Trip fixture: T1 on route R1 under service X. -/
def tripT1 : TripRow :=
  { route_id := "R1", service_id := "X", trip_id := "T1", direction_id := 0 }

/-- The single joined row the basic scenario produces. -/
def scheduleRowT1 : ScheduleRow := mkScheduleRow routeR1 tripT1 calX stopTimeT1 stop30010

/-- Dashboard-row fixture builder (passthrough fields fixed). -/
def mkHist (line color trip arrival : String) (stop : Int)
    (mon tue wed thu fri sat sun sdate : Nat) : HistRow :=
  { route_id := "R1", route_long_name := line, route_color := color,
    service_id := "S1", trip_id := trip, direction_id := 0,
    monday := mon, tuesday := tue, wednesday := wed, thursday := thu,
    friday := fri, saturday := sat, sunday := sun,
    start_date := sdate, end_date := 20261231,
    arrival_time := arrival, departure_time := arrival,
    stop_id := stop, stop_sequence := 1, stop_name := "Grand" }

/-- A weekday-service Red Line dashboard row. -/
def histWeekday : HistRow :=
  mkHist "Red Line" "C60C30" "T1" "08:15:00" 30010 1 1 1 1 1 0 0 20260101

/-! Claim theorems. -/

/-- C2 (code_bug evidence).  The deriver in src is the stale variant: the
combined dataframe's column set contains neither start_date nor end_date
(both are dropped from calendar before the joins), and the handler writes
the constant object key `gtfs_expected_cta_schedule.csv` rather than a key
derived from the minimum calendar start_date — on the basic scenario input
(whose only start_date is 20260101) the written key is not
`gtfs_expected_cta_schedule/20260101.csv`, and no effective date is
computed or returned anywhere in the pipeline. -/
theorem c2_stale_deriver_output :
    "start_date" ∉ combinedColumns ∧ "end_date" ∉ combinedColumns ∧
    gtfsHandler (some [calX]) (some [routeR1]) (some [stop30010])
        (some [stopTimeT1]) (some [tripT1])
      = .ok ("gtfs_expected_cta_schedule.csv", [scheduleRowT1]) ∧
    save_to_s3_key ≠ "gtfs_expected_cta_schedule/20260101.csv" := by
  refine ⟨by decide, by decide, rfl, by decide⟩

/-- C8 (code_bug evidence).  With all five relations present but the
calendar relation containing zero rows, the deriver raises no
"no effective date determinable" error (it has no effective-date logic at
all): it succeeds and writes a header-only file under the fixed key.  A
missing object, by contrast, does propagate as a ClientError with nothing
written, which is the only half of the claimed error behaviour the stale
code implements. -/
theorem c8_no_effective_date_error :
    gtfsHandler (some []) (some [routeR1]) (some [stop30010])
        (some [stopTimeT1]) (some [tripT1])
      = .ok ("gtfs_expected_cta_schedule.csv", []) ∧
    gtfsHandler none (some [routeR1]) (some [stop30010])
        (some [stopTimeT1]) (some [tripT1])
      = .error "ClientError: calendar.txt" := by
  exact ⟨rfl, rfl⟩

/-- C3: a base-table row survives the schedule-type filter exactly when its
route_long_name equals the selected line and its runs value is positive,
the runs value being the sum of the five weekday flags for Weekday and the
single saturday or sunday flag otherwise. -/
theorem c3_schedule_type_filter (st line : String) (rows : List HistRow) (r : HistRow)
    (h : st = "Weekday" ∨ st = "Saturday" ∨ st = "Sunday") :
    r ∈ filteredSchedules st line rows ↔
      r ∈ rows ∧ r.route_long_name = line ∧
        0 < (if st = "Weekday" then
               r.monday + r.tuesday + r.wednesday + r.thursday + r.friday
             else if st = "Saturday" then r.saturday else r.sunday) := by
  rcases h with rfl | rfl | rfl <;>
    simp [filteredSchedules, List.mem_filter, runsCalculation, and_assoc, and_comm]

/-- C3 witness: the weekday fixture row is kept by the Weekday filter. -/
theorem c3_schedule_type_filter_witness :
    ("Weekday" = "Weekday" ∨ "Weekday" = "Saturday" ∨ "Weekday" = "Sunday") ∧
    (histWeekday ∈ filteredSchedules "Weekday" "Red Line" [histWeekday] ↔
      histWeekday ∈ [histWeekday] ∧ histWeekday.route_long_name = "Red Line" ∧
        0 < (if "Weekday" = "Weekday" then
               histWeekday.monday + histWeekday.tuesday + histWeekday.wednesday +
                 histWeekday.thursday + histWeekday.friday
             else if "Weekday" = "Saturday" then histWeekday.saturday
             else histWeekday.sunday)) :=
  ⟨Or.inl rfl, c3_schedule_type_filter "Weekday" "Red Line" [histWeekday] histWeekday (Or.inl rfl)⟩

/-- C9: when the filtered relation is empty, the three analytics queries
all return empty outputs and none of them signals an error. -/
theorem c9_empty_filtered_relation (st line : String) (rows : List HistRow)
    (h : filteredSchedules st line rows = []) :
    trainsPerHour (filteredSchedules st line rows) = some [] ∧
    averageHeadway (filteredSchedules st line rows) = some [] ∧
    totalTrains (filteredSchedules st line rows) = [] := by
  rw [h]; exact ⟨rfl, rfl, rfl⟩

/-- C9 witness: the Saturday filter empties the weekday fixture table. -/
theorem c9_empty_filtered_relation_witness :
    filteredSchedules "Saturday" "Red Line" [histWeekday] = [] ∧
    (trainsPerHour (filteredSchedules "Saturday" "Red Line" [histWeekday]) = some [] ∧
     averageHeadway (filteredSchedules "Saturday" "Red Line" [histWeekday]) = some [] ∧
     totalTrains (filteredSchedules "Saturday" "Red Line" [histWeekday]) = []) :=
  ⟨by decide, c9_empty_filtered_relation "Saturday" "Red Line" [histWeekday] (by decide)⟩

/-- C10: any schedule-type string other than Weekday, Saturday and Sunday
falls into the ELSE 0 branch of the CASE, so every row's runs_calculation
is 0, the filtered relation is empty, and all three queries return empty
outputs without error. -/
theorem c10_unknown_schedule_type (st line : String) (rows : List HistRow) (r : HistRow)
    (h1 : st ≠ "Weekday") (h2 : st ≠ "Saturday") (h3 : st ≠ "Sunday") :
    runsCalculation st r = 0 ∧ filteredSchedules st line rows = [] ∧
    trainsPerHour (filteredSchedules st line rows) = some [] ∧
    averageHeadway (filteredSchedules st line rows) = some [] ∧
    totalTrains (filteredSchedules st line rows) = [] := by
  have hr : ∀ x : HistRow, runsCalculation st x = 0 := by
    intro x; simp [runsCalculation, h1, h2, h3]
  have hf : filteredSchedules st line rows = [] := by
    unfold filteredSchedules
    rw [List.filter_eq_nil_iff]
    intro x _
    simp [hr x]
  rw [hf]
  exact ⟨hr r, rfl, rfl, rfl, rfl⟩

/-- C10 witness: the filter at schedule type Holiday. -/
theorem c10_unknown_schedule_type_witness :
    (("Holiday" : String) ≠ "Weekday" ∧ ("Holiday" : String) ≠ "Saturday" ∧
      ("Holiday" : String) ≠ "Sunday") ∧
    (runsCalculation "Holiday" histWeekday = 0 ∧
     filteredSchedules "Holiday" "Red Line" [histWeekday] = [] ∧
     trainsPerHour (filteredSchedules "Holiday" "Red Line" [histWeekday]) = some [] ∧
     averageHeadway (filteredSchedules "Holiday" "Red Line" [histWeekday]) = some [] ∧
     totalTrains (filteredSchedules "Holiday" "Red Line" [histWeekday]) = []) :=
  ⟨⟨by decide, by decide, by decide⟩,
    c10_unknown_schedule_type "Holiday" "Red Line" [histWeekday] histWeekday
      (by decide) (by decide) (by decide)⟩

/-! Query B scenarios. -/

/-- Three arrivals at stop 30010: 08:00:00, 08:10:00, 08:25:00. -/
def c5rows : List HistRow :=
  [mkHist "Red Line" "C60C30" "T1" "08:00:00" 30010 1 1 1 1 1 0 0 20260101,
   mkHist "Red Line" "C60C30" "T2" "08:10:00" 30010 1 1 1 1 1 0 0 20260101,
   mkHist "Red Line" "C60C30" "T3" "08:25:00" 30010 1 1 1 1 1 0 0 20260101]

/-- The (stop_id, arrival_seconds) pairs of the c5rows relation. -/
def c5data : List (Int × Int) := [(30010, 28800), (30010, 29400), (30010, 30300)]

/-- The average the Query B embedding computes for hour 8 of c5data,
written out literally so that the kernel can check it definitionally. -/
def c5avg : ℚ :=
  (((600 : Int) : ℚ) / 60 + (((900 : Int) : ℚ) / 60 + 0)) / ((2 : Nat) : ℚ)

/-- Two arrivals ten minutes apart at stop 30010: 09:00:00 and 09:10:00. -/
def c6rows : List HistRow :=
  [mkHist "Red Line" "C60C30" "T1" "09:00:00" 30010 1 1 1 1 1 0 0 20260101,
   mkHist "Red Line" "C60C30" "T2" "09:10:00" 30010 1 1 1 1 1 0 0 20260101]

/-- The hour-9 average of the c6rows relation, written out literally. -/
def c6avg : ℚ := (((600 : Int) : ℚ) / 60 + 0) / ((1 : Nat) : ℚ)

/-- The DuckDB mm:ss rendering of the mean 12.5: round(12.5*60) = 750,
cast(750/60) = 12 under the round-half-to-even DOUBLE-to-INTEGER cast
(agreeing with the claim's floor at this value), 750 fmod 60 = 30. -/
theorem mmss_of_mean_25_halves : mmss (25 / 2) = "12:30" := by
  unfold mmss
  rw [show (25 / 2 : ℚ) * 60 = 750 by norm_num]
  rw [show duckRound (750 : ℚ) = 750 by unfold duckRound; rw [if_pos (by norm_num)]; norm_num]
  rw [show duckCastInt (((750 : Int) : ℚ) / 60) = 12 by
    rw [show (((750 : Int) : ℚ) / 60) = 25 / 2 by push_cast; norm_num]
    unfold duckCastInt; norm_num]
  decide

/-- The mm:ss rendering of the mean 10: round(600) = 600, cast(600/60)
= 10, 600 fmod 60 = 0, formatted minutes-first. -/
theorem mmss_of_mean_ten : mmss 10 = "10:00" := by
  unfold mmss
  rw [show (10 : ℚ) * 60 = 600 by norm_num]
  rw [show duckRound (600 : ℚ) = 600 by unfold duckRound; rw [if_pos (by norm_num)]; norm_num]
  rw [show duckCastInt (((600 : Int) : ℚ) / 60) = 10 by
    rw [show (((600 : Int) : ℚ) / 60) = 10 by push_cast; norm_num]
    unfold duckCastInt; norm_num]
  decide

/-- C5: on the three-arrival scenario the headway samples are exactly the
10-minute and 15-minute gaps, both in hour bucket 8, the bucket's mean is
25/2 = 12.5 minutes, and its mm:ss rendering is "12:30". -/
theorem c5_headway_scenario :
    optionTraverse (fun r => (arrivalSeconds r.arrival_time).map fun s => (r.stop_id, s)) c5rows
      = some c5data ∧
    headwaySamples c5data = [(8, 10), (8, 15)] ∧
    averageHeadway c5rows = some [(8, 25 / 2, "12:30")] := by
  refine ⟨by decide, ?_, ?_⟩
  · rw [show headwaySamples c5data
        = [(8, ((600 : Int) : ℚ) / 60), (8, ((900 : Int) : ℚ) / 60)] from rfl]
    norm_num
  · rw [show averageHeadway c5rows = some [(8, c5avg, mmss c5avg)] from rfl]
    rw [show c5avg = 25 / 2 by unfold c5avg; push_cast; norm_num]
    rw [mmss_of_mean_25_halves]

/-- C6 (amended): a stop whose partition holds exactly one arrival
contributes no headway sample (LAG is NULL on a partition's first row),
and for a stop with exactly two arrivals ten minutes apart in one hour
bucket the bucket's mean headway is exactly 10.0 — rendered as "10:00"
(ten minutes, zero seconds), not "00:10". -/
theorem c6_first_arrival_excluded (data : List (Int × Int)) (s : Int)
    (h : (data.filter fun p => p.1 == s).length = 1) :
    stopSamples data s = [] ∧ averageHeadway c6rows = some [(9, 10, "10:00")] := by
  constructor
  · unfold stopSamples
    have hlen : (List.insertionSort (fun a b => a ≤ b)
        ((data.filter fun p => p.1 == s).map fun p => p.2)).length = 1 := by
      rw [(List.perm_insertionSort _ _).length_eq, List.length_map, h]
    obtain ⟨x, hx⟩ := List.length_eq_one.mp hlen
    rw [hx]
    rfl
  · rw [show averageHeadway c6rows = some [(9, c6avg, mmss c6avg)] from rfl]
    rw [show c6avg = 10 by unfold c6avg; push_cast; norm_num]
    rw [mmss_of_mean_ten]

/-- C6 witness: a one-arrival partition at stop 30010. -/
theorem c6_first_arrival_excluded_witness :
    ([((30010 : Int), (32400 : Int))].filter fun p => p.1 == 30010).length = 1 ∧
    (stopSamples [((30010 : Int), (32400 : Int))] 30010 = [] ∧
     averageHeadway c6rows = some [(9, 10, "10:00")]) :=
  ⟨by decide, c6_first_arrival_excluded [((30010 : Int), (32400 : Int))] 30010 (by decide)⟩

/-- C6 counterexample: for the two-arrival ten-minute scenario the code's
avg_headway_mmss is "10:00", so it is not "00:10" as the claim states. -/
theorem c6_mmss_counterexample :
    averageHeadway c6rows = some [(9, 10, "10:00")] ∧
    averageHeadway c6rows ≠ some [(9, 10, "00:10")] := by
  have hv : averageHeadway c6rows = some [(9, 10, "10:00")] := by
    rw [show averageHeadway c6rows = some [(9, c6avg, mmss c6avg)] from rfl]
    rw [show c6avg = 10 by unfold c6avg; push_cast; norm_num]
    rw [mmss_of_mean_ten]
  refine ⟨hv, ?_⟩
  rw [hv]
  intro heq
  simp only [Option.some.injEq, List.cons.injEq, Prod.mk.injEq] at heq
  exact absurd heq.1.2.2 (by decide)

/-- A successful Option-traversal yields as many results as inputs. -/
theorem optionTraverse_length (f : α → Option β) (l : List α) (l' : List β)
    (h : optionTraverse f l = some l') : l'.length = l.length := by
  induction l generalizing l' with
  | nil =>
    unfold optionTraverse at h
    cases h
    rfl
  | cons a as ih =>
    unfold optionTraverse at h
    cases hfa : f a with
    | none => rw [hfa] at h; cases h
    | some b =>
      rw [hfa] at h
      cases hrec : optionTraverse f as with
      | none => rw [hrec] at h; cases h
      | some bs =>
        rw [hrec] at h
        cases h
        simp [ih bs hrec]

/-- C4: whenever Query A succeeds, the hour-bucket trip counts sum to the
number of distinct trip_id values of the filtered relation, and the output
is ascending in the (unwrapped) hour. -/
theorem c4_trips_per_hour_total (rows : List HistRow) (out : List (Int × Nat))
    (h : trainsPerHour rows = some out) :
    (out.map fun e => e.2).sum = ((rows.map fun r => r.trip_id).dedup).length ∧
    out.Pairwise fun a b => a.1 ≤ b.1 := by
  unfold trainsPerHour at h
  cases e : optionTraverse (tripStartHour rows) ((rows.map fun r => r.trip_id).dedup) with
  | none => rw [e] at h; cases h
  | some starts =>
    rw [e] at h
    cases h
    constructor
    · have hperm := (List.perm_insertionSort (fun a b : Int × Nat => a.1 ≤ b.1)
        (starts.dedup.map fun hh => (hh, (starts.filter fun x => x == hh).length))).map
          fun q : Int × Nat => q.2
      rw [hperm.sum_eq, List.map_map]
      have hc : (starts.dedup.map
            ((fun q : Int × Nat => q.2) ∘ fun hh => (hh, (starts.filter fun x => x == hh).length)))
          = starts.dedup.map fun hh => starts.count hh := by
        apply List.map_congr_left
        intro x _
        exact (List.countP_eq_length_filter _ _).symm
      rw [hc, List.sum_map_count_dedup_eq_length]
      exact optionTraverse_length _ _ _ e
    · haveI : IsTotal (Int × Nat) fun a b => a.1 ≤ b.1 := ⟨fun a b => le_total a.1 b.1⟩
      haveI : IsTrans (Int × Nat) fun a b => a.1 ≤ b.1 := ⟨fun _ _ _ hab hbc => le_trans hab hbc⟩
      exact List.sorted_insertionSort _ _

/-- C4 witness: Query A on the one-row weekday fixture. -/
theorem c4_trips_per_hour_total_witness :
    trainsPerHour [histWeekday] = some [(8, 1)] ∧
    (([((8 : Int), (1 : Nat))].map fun e => e.2).sum
        = (([histWeekday].map fun r => r.trip_id).dedup).length ∧
     [((8 : Int), (1 : Nat))].Pairwise fun a b => a.1 ≤ b.1) :=
  ⟨by decide, c4_trips_per_hour_total [histWeekday] [(8, 1)] (by decide)⟩

/-- A Saturday-only Red Line row. -/
def c7row : HistRow :=
  mkHist "Red Line" "C60C30" "T1" "08:00:00" 30010 0 0 0 0 0 1 0 20260101

/-- C7 counterexample: Query C reads FROM filtered_schedules, which is the
schedule-type- and line-filtered relation.  Under the Weekday selection a
Saturday-only row is filtered away and Query C returns nothing, whereas
Query C over the merely line-filtered relation (what the claim describes)
returns that row's group. -/
theorem c7_schedule_type_counterexample :
    totalTrains (filteredSchedules "Weekday" "Red Line" [c7row]) = [] ∧
    totalTrains ([c7row].filter fun r => r.route_long_name == "Red Line")
      = [("Red Line", (2026, 1, 1), "#C60C30", 1)] := by
  exact ⟨rfl, by decide⟩

/-- C7 (amended): Query C, computed over the schedule-type- and
line-filtered relation, is ordered descending by scheduled run count, and
each output tuple is the group of some surviving row: its line name, its
start_date parsed as a calendar date, its route_color prefixed with the
hash sign, and the count of distinct trip_id values in that group. -/
theorem c7_total_trains_shape (st line : String) (rows : List HistRow) :
    (totalTrains (filteredSchedules st line rows)).Pairwise
        (fun a b => b.2.2.2 ≤ a.2.2.2) ∧
    ∀ e ∈ totalTrains (filteredSchedules st line rows),
      ∃ r, r ∈ filteredSchedules st line rows ∧
        e.1 = r.route_long_name ∧ e.2.1 = parseYmd r.start_date ∧
        e.2.2.1 = "#" ++ r.route_color ∧
        e.2.2.2 = ((((filteredSchedules st line rows).filter fun x =>
            (x.route_long_name, x.start_date, x.route_color)
              == (r.route_long_name, r.start_date, r.route_color)).map
                fun x => x.trip_id).dedup).length := by
  constructor
  · haveI : IsTotal (String × (Nat × Nat × Nat) × String × Nat)
        fun a b => b.2.2.2 ≤ a.2.2.2 := ⟨fun a b => (le_total a.2.2.2 b.2.2.2).symm⟩
    haveI : IsTrans (String × (Nat × Nat × Nat) × String × Nat)
        fun a b => b.2.2.2 ≤ a.2.2.2 := ⟨fun _ _ _ hab hbc => le_trans hbc hab⟩
    exact List.sorted_insertionSort _ _
  · intro e he
    unfold totalTrains at he
    rw [List.mem_insertionSort] at he
    obtain ⟨k, hk, hek⟩ := List.mem_map.mp he
    obtain ⟨r, hr, hrk⟩ := List.mem_map.mp (List.mem_dedup.mp hk)
    subst hrk
    subst hek
    exact ⟨r, hr, rfl, rfl, rfl, rfl⟩

/-! Claim-side reading of the join-cardinality property: a (trip row,
stop-time row) pair qualifies when the two rows share a trip_id, the
stop-time's stop_id is a rail platform, and the trip has a matching
allow-listed route row, a matching calendar row and (via the inner join
on stop_id) a matching rail-platform stop row. -/

/-- The trip has a matching route row whose long name is allow-listed. -/
def hasRailRouteRow (routes : List RouteRow) (t : TripRow) : Bool :=
  routes.any fun r => TRAIN_LINES.contains r.route_long_name && r.route_id == t.route_id

/-- The trip has a matching calendar row. -/
def hasCalendarRow (calendar : List CalendarRow) (t : TripRow) : Bool :=
  calendar.any fun c => c.service_id == t.service_id

/-- The stop-time has a matching rail-platform stop row. -/
def hasStopRow (stops : List StopRow) (st : StopTimeRow) : Bool :=
  stops.any fun sp => inStopRange sp.stop_id && sp.stop_id == st.stop_id

/-- The qualifying (trip row, stop-time row) pairs of the claim. -/
def qualifyingPairs (calendar : List CalendarRow) (routes : List RouteRow)
    (stops : List StopRow) (stop_times : List StopTimeRow) (trips : List TripRow) :
    List (TripRow × StopTimeRow) :=
  trips.flatMap fun t =>
    (stop_times.filter fun st =>
      st.trip_id == t.trip_id && inStopRange st.stop_id &&
        hasRailRouteRow routes t && hasCalendarRow calendar t && hasStopRow stops st).map
      fun st => (t, st)

/-- Boolean equality tests are symmetric for decidable equality. -/
theorem beq_swap {γ : Type} [DecidableEq γ] (a b : γ) : (a == b) = (b == a) := by
  by_cases h : a = b
  · subst h; rfl
  · rw [beq_eq_false_iff_ne.mpr h, beq_eq_false_iff_ne.mpr (Ne.symm h)]

/-- With pairwise-distinct keys, a key-equality filter keeps one row when
a match exists and none otherwise. -/
theorem filter_key_length {β : Type} [DecidableEq β] (l : List α) (key : α → β) (k : β)
    (h : (l.map key).Nodup) :
    (l.filter fun x => key x == k).length = if l.any fun x => key x == k then 1 else 0 := by
  induction l with
  | nil => rfl
  | cons a as ih =>
    rw [List.map_cons, List.nodup_cons] at h
    obtain ⟨hna, hnd⟩ := h
    by_cases hk : key a = k
    · subst hk
      have hzero : (as.filter fun x => key x == key a).length = 0 := by
        rw [List.length_eq_zero, List.filter_eq_nil_iff]
        intro x hx hxa
        exact hna ((beq_iff_eq.mp hxa) ▸ List.mem_map_of_mem key hx)
      simp [List.filter_cons, List.any_cons, hzero]
    · have hba : (key a == k) = false := beq_eq_false_iff_ne.mpr hk
      simp [List.filter_cons, List.any_cons, hba, ih hnd]

/-- Summing a mapped 0/1 indicator counts the filtered elements. -/
theorem sum_map_indicator (l : List α) (p : α → Bool) :
    (l.map fun x => if p x then 1 else 0).sum = (l.filter p).length := by
  induction l with
  | nil => rfl
  | cons a as ih =>
    cases hpa : p a
    · simp [List.filter_cons, hpa, ih]
    · simp [List.filter_cons, hpa, ih]
      omega

/-- Length of a flatMap whose pieces all have the same length. -/
theorem length_flatMap_const (l : List α) (f : α → List β) (n : Nat)
    (h : ∀ a ∈ l, (f a).length = n) : (l.flatMap f).length = l.length * n := by
  induction l with
  | nil => simp
  | cons a as ih =>
    rw [List.flatMap_cons, List.length_append, h a (List.mem_cons_self a as),
      ih fun x hx => h x (List.mem_cons_of_mem a hx), List.length_cons]
    ring

/-- Mapped sums add pointwise. -/
theorem sum_map_add_distrib (l : List α) (f g : α → Nat) :
    (l.map fun x => f x + g x).sum = (l.map f).sum + (l.map g).sum := by
  induction l with
  | nil => rfl
  | cons a as ih =>
    simp only [List.map_cons, List.sum_cons, ih]
    omega

/-- A sum over a filter equals the sum of the if-guarded map. -/
theorem sum_map_filter (l : List α) (p : α → Bool) (g : α → Nat) :
    ((l.filter p).map g).sum = (l.map fun x => if p x then g x else 0).sum := by
  induction l with
  | nil => rfl
  | cons a as ih => cases hpa : p a <;> simp [List.filter_cons, hpa, ih]

/-- Exchange a sum over dimension rows of per-match fact sums with a sum
over fact rows weighted by their dimension match counts. -/
theorem sum_sum_filter_swap {ρ τ : Type} (R : List ρ) (T : List τ)
    (m : ρ → τ → Bool) (g : τ → Nat) :
    (R.map fun r => ((T.filter (m r)).map g).sum).sum
      = (T.map fun t => (R.countP fun r => m r t) * g t).sum := by
  induction R with
  | nil => simp
  | cons r R ih =>
    rw [List.map_cons, List.sum_cons, ih, sum_map_filter, ← sum_map_add_distrib]
    refine congrArg List.sum (List.map_congr_left fun t _ => ?_)
    rw [List.countP_cons]
    cases hmt : m r t
    · simp [hmt]
    · simp [hmt]
      ring

/-- Summing a mapped constant multiplies it by the length. -/
theorem sum_map_const {γ : Type} (l : List γ) (v : Nat) :
    (l.map fun _ => v).sum = l.length * v := by
  induction l with
  | nil => simp
  | cons a as ih => rw [List.map_cons, List.sum_cons, ih, List.length_cons]; ring

/-- C1 counterexample: with the calendar relation holding two identical
rows for service X, the deriver emits two output rows for the single
qualifying (trip, stop-time) pair, so the claimed exactly-one-row-per-pair
cardinality fails without a distinct-keys assumption. -/
theorem c1_duplicate_calendar_counterexample :
    (processs_gtfs_data [calX, calX] [routeR1] [stop30010] [stopTimeT1] [tripT1]).length = 2 ∧
    (qualifyingPairs [calX, calX] [routeR1] [stop30010] [stopTimeT1] [tripT1]).length = 1 := by
  exact ⟨rfl, rfl⟩

/-- C1 (amended): assuming the allow-listed route rows carry
pairwise-distinct route_id values, the calendar rows pairwise-distinct
service_id values and the rail-range stop rows pairwise-distinct stop_id
values, the deriver output holds exactly one row per qualifying
(trip row, stop-time row) pair; and every output row's route_long_name is
in the allow-list and its stop_id in the rail range [30000, 40000). -/
theorem c1_join_cardinality (calendar : List CalendarRow) (routes : List RouteRow)
    (stops : List StopRow) (stop_times : List StopTimeRow) (trips : List TripRow)
    (hR : ((routesFiltered routes).map fun r => r.route_id).Nodup)
    (hC : (calendar.map fun c => c.service_id).Nodup)
    (hS : ((stopsFiltered stops).map fun s => s.stop_id).Nodup) :
    (processs_gtfs_data calendar routes stops stop_times trips).length
      = (qualifyingPairs calendar routes stops stop_times trips).length ∧
    ∀ row ∈ processs_gtfs_data calendar routes stops stop_times trips,
      TRAIN_LINES.contains row.route_long_name = true ∧ inStopRange row.stop_id = true := by
  constructor
  · have hstop : ∀ st : StopTimeRow,
        ((stopsFiltered stops).filter fun sp => sp.stop_id == st.stop_id).length
          = if hasStopRow stops st then 1 else 0 := by
      intro st
      rw [filter_key_length (stopsFiltered stops) (fun s => s.stop_id) st.stop_id hS]
      unfold stopsFiltered hasStopRow
      rw [List.any_filter]
    have hcal : ∀ t : TripRow,
        (calendar.filter fun c => c.service_id == t.service_id).length
          = if hasCalendarRow calendar t then 1 else 0 := by
      intro t
      rw [filter_key_length calendar (fun c => c.service_id) t.service_id hC]
      rfl
    have hroute : ∀ t : TripRow,
        ((routesFiltered routes).countP fun r => t.route_id == r.route_id)
          = if hasRailRouteRow routes t then 1 else 0 := by
      intro t
      rw [List.countP_congr fun r _ => by rw [beq_swap t.route_id r.route_id]]
      rw [List.countP_eq_length_filter]
      rw [filter_key_length (routesFiltered routes) (fun r => r.route_id) t.route_id hR]
      unfold routesFiltered hasRailRouteRow
      rw [List.any_filter]
    unfold processs_gtfs_data qualifyingPairs
    simp only [List.length_flatMap, Function.comp_def, List.length_map, hstop,
      sum_map_indicator, sum_map_const, hcal]
    rw [sum_sum_filter_swap (routesFiltered routes) trips fun r t => t.route_id == r.route_id]
    refine congrArg List.sum (List.map_congr_left fun t _ => ?_)
    rw [hroute t]
    cases hRail : hasRailRouteRow routes t
    case false => simp [hRail]
    case true =>
      cases hCal : hasCalendarRow calendar t
      case false => simp [hCal]
      case true =>
        simp only [hRail, hCal, if_true, one_mul]
        unfold stopTimesFiltered
        rw [List.filter_filter, List.filter_filter]
        refine congrArg List.length (List.filter_congr fun st _ => ?_)
        simp [Bool.and_comm, Bool.and_left_comm, Bool.and_assoc]
  · intro row hrow
    unfold processs_gtfs_data at hrow
    simp only [List.mem_flatMap, List.mem_map] at hrow
    obtain ⟨r, hr, t, _, c, _, st, hst, sp, _, heq⟩ := hrow
    subst heq
    constructor
    · unfold routesFiltered at hr
      exact (List.mem_filter.mp hr).2
    · have h1 : st ∈ stopTimesFiltered stop_times := (List.mem_filter.mp hst).1
      unfold stopTimesFiltered at h1
      exact (List.mem_filter.mp h1).2

/-- C1 witness: the basic scenario satisfies the distinct-key assumptions
and its single joined row matches its single qualifying pair. -/
theorem c1_join_cardinality_witness :
    (((routesFiltered [routeR1]).map fun r => r.route_id).Nodup ∧
     (([calX].map fun c => c.service_id).Nodup) ∧
     ((stopsFiltered [stop30010]).map fun s => s.stop_id).Nodup) ∧
    ((processs_gtfs_data [calX] [routeR1] [stop30010] [stopTimeT1] [tripT1]).length
        = (qualifyingPairs [calX] [routeR1] [stop30010] [stopTimeT1] [tripT1]).length ∧
     ∀ row ∈ processs_gtfs_data [calX] [routeR1] [stop30010] [stopTimeT1] [tripT1],
       TRAIN_LINES.contains row.route_long_name = true ∧ inStopRange row.stop_id = true) :=
  ⟨⟨by decide, by decide, by decide⟩,
    c1_join_cardinality [calX] [routeR1] [stop30010] [stopTimeT1] [tripT1]
      (by decide) (by decide) (by decide)⟩

end Cta
